import Mathlib

/-!
Verification development for the sales-report pipeline
(`app/services/csv_service.py`, `app/services/pdf_service.py`,
`app/models/sales.py`, `app/config/settings.py`).

The Python sources are shallowly embedded as executable Lean definitions:
CSV rows become lists of field strings, `csv.DictReader` dictionaries become
association lists built exactly the way `dict(zip(fieldnames, row))` plus the
`restval=None` fill does, Python `str`/`None` cell values become
`Option String`, Python `int(...)` / `float(...)` become explicit parsers
returning `Option` (`none` models the raised `ValueError`/`TypeError`), and
Python floats are modelled as exact rationals (the decimal literals appearing
in the data and formatting are exact at this granularity; IEEE-754 tie
behaviour of `, .2f` formatting is not modelled — no claim exercises a tie).
Non-finite float literals (`inf`, `nan`) and digit-group underscores accepted
by the Python numeric constructors are not modelled; no claim uses them.
-/

/-! ## Settings (`app/config/settings.py`)

`BASE_DIR` is resolved at runtime from the installed location via
`os.path.dirname(...)`; it is modelled as an abstract root path. -/

def BASE_DIR : String := "/base"

def DATA_DIR : String := BASE_DIR ++ "/data"

def REPORTS_DIR : String := BASE_DIR ++ "/reports"

/-! ## Data model (`app/models/sales.py`)

`SalesItem` is a pydantic model with `product: str` (`min_length=1`),
`quantity: int` (`ge=1`), `price: float` (`ge=0`) and a `validator` on
`product` that returns `v.strip()`.  In pydantic v1 the `min_length`
constraint is checked on the raw value and the class validator runs
afterwards, so the stored name is the stripped string while the length gate
applies to the unstripped input.  Construction is modelled by
`mkSalesItem?`, returning `none` when pydantic would raise
`ValidationError` (a `ValueError` subclass). -/

structure SalesItem where
  product : String
  quantity : Int
  price : ℚ
deriving DecidableEq, Repr

/-- Python `str.strip()`: drop whitespace from both ends. -/
def pyStrip (s : String) : String :=
  ⟨((s.data.dropWhile Char.isWhitespace).reverse.dropWhile Char.isWhitespace).reverse⟩

/-- Pydantic construction gate for `SalesItem`: field constraints
(`min_length=1`, `ge=1`, `ge=0`) are checked on the raw values, then the
`product` validator strips the name. -/
def mkSalesItem? (product : String) (quantity : Int) (price : ℚ) : Option SalesItem :=
  if 1 ≤ product.length ∧ 1 ≤ quantity ∧ 0 ≤ price then
    some ⟨pyStrip product, quantity, price⟩
  else
    none

/-- Derived `total` property of a `SalesItem`: `quantity * price`. -/
def SalesItem.total (it : SalesItem) : ℚ := (it.quantity : ℚ) * it.price

structure SalesReport where
  items : List SalesItem
deriving DecidableEq, Repr

/-- Derived `total_revenue` property: `sum(item.total for item in items)`. -/
def SalesReport.total_revenue (r : SalesReport) : ℚ := (r.items.map SalesItem.total).sum

/-- Derived `total_items` property: `sum(item.quantity for item in items)`. -/
def SalesReport.total_items (r : SalesReport) : Int := (r.items.map SalesItem.quantity).sum

structure ReportResponse where
  filename : String
  generated_at : String
  items_count : Nat
  total_revenue : ℚ
  download_url : String
deriving DecidableEq, Repr

/-! ## `csv.DictReader` row dictionaries

`DictReader` builds `d = dict(zip(fieldnames, row))` and fills the columns a
short row lacks with `restval = None`; extra cells beyond the header are
dropped (they land under the non-string `restkey`).  `dGet hd f k` models
dictionary lookup distinguishing three Python outcomes: `Option.none` for an
absent key, `some Option.none` for a key bound to `None`, and
`some (some s)` for a key bound to string `s`.  Duplicate header names
resolve to the last occurrence, as Python `dict` assignment does, via the
reversed lookup. -/

def rowVals (hd f : List String) : List (String × Option String) :=
  hd.zip (f.map some ++ List.replicate (hd.length - f.length) none)

def dGet (hd f : List String) (k : String) : Option (Option String) :=
  (rowVals hd f).reverse.lookup k

/-- Python `row.get(k)` (default `None`): collapses absent key and `None`
value to `none`. -/
def get0 (hd f : List String) (k : String) : Option String := (dGet hd f k).join

/-! ## Python numeric constructors -/

/-- A Python value flowing into `int(...)` / `float(...)` in this service:
a cell string, the integer default `0`, or `None`. -/
inductive PyVal where
  | str (s : String)
  | int (n : Int)
  | pyNone
deriving DecidableEq, Repr

def trimWs (l : List Char) : List Char :=
  ((l.dropWhile Char.isWhitespace).reverse.dropWhile Char.isWhitespace).reverse

def digitsToNat (l : List Char) : Nat :=
  l.foldl (fun a c => a * 10 + (c.toNat - 48)) 0

/-- Python `int(s)` on a string: optional surrounding whitespace, optional
sign, then a nonempty digit run; anything else raises `ValueError`
(modelled as `none`). -/
def pyIntOfChars (l : List Char) : Option Int :=
  let go : List Char → Option Nat := fun ds =>
    if ds ≠ [] ∧ ds.all Char.isDigit then some (digitsToNat ds) else none
  match trimWs l with
  | '+' :: rest => (go rest).map Int.ofNat
  | '-' :: rest => (go rest).map (fun n => -(n : Int))
  | rest => (go rest).map Int.ofNat

/-- Exponent suffix of a Python float literal: empty, or `e`/`E`, an optional
sign and a nonempty digit run consuming the rest of the input. -/
def parseExp (l : List Char) : Option Int :=
  let go : List Char → Option Nat := fun ds =>
    if ds ≠ [] ∧ ds.all Char.isDigit then some (digitsToNat ds) else none
  match l with
  | [] => some 0
  | 'e' :: rest =>
    match rest with
    | '+' :: ds => (go ds).map Int.ofNat
    | '-' :: ds => (go ds).map (fun n => -(n : Int))
    | ds => (go ds).map Int.ofNat
  | 'E' :: rest =>
    match rest with
    | '+' :: ds => (go ds).map Int.ofNat
    | '-' :: ds => (go ds).map (fun n => -(n : Int))
    | ds => (go ds).map Int.ofNat
  | _ => none

/-- The rational value `ip.fp × 10^e` of a decimal literal with integer-part
digits `ip`, fraction digits `fp` and exponent `e`, built with integer
arithmetic and a single normalizing `mkRat`. -/
def floatValue (ip fp : List Char) (e : Int) : ℚ :=
  let den := 10 ^ fp.length
  let num := digitsToNat ip * den + digitsToNat fp
  if 0 ≤ e then mkRat (Int.ofNat (num * 10 ^ e.natAbs)) den
  else mkRat (Int.ofNat num) (den * 10 ^ e.natAbs)

/-- Unsigned part of a Python float literal: digits, optionally a point and
further digits (at least one digit on one side of the point), then an
optional exponent. -/
def parseUnsignedFloat (l : List Char) : Option ℚ :=
  let ip := l.takeWhile Char.isDigit
  let r1 := l.dropWhile Char.isDigit
  match r1 with
  | '.' :: r2 =>
    let fp := r2.takeWhile Char.isDigit
    let r3 := r2.dropWhile Char.isDigit
    if ip = [] ∧ fp = [] then none
    else (parseExp r3).map fun e => floatValue ip fp e
  | _ =>
    if ip = [] then none
    else (parseExp r1).map fun e => floatValue ip [] e

/-- Python `float(s)` on a string: optional surrounding whitespace and sign
around `parseUnsignedFloat`; failure models the raised `ValueError`. -/
def pyFloatOfChars (l : List Char) : Option ℚ :=
  match trimWs l with
  | '+' :: rest => parseUnsignedFloat rest
  | '-' :: rest => (parseUnsignedFloat rest).map Neg.neg
  | rest => parseUnsignedFloat rest

/-- Python `int(v)`: `None` raises `TypeError`, a non-integer string raises
`ValueError` (both modelled as `none`). -/
def pyValInt? (v : PyVal) : Option Int :=
  match v with
  | .int n => some n
  | .pyNone => none
  | .str s => pyIntOfChars s.data

/-- Python `float(v)`: `None` raises `TypeError`, a non-numeric string raises
`ValueError` (both modelled as `none`). -/
def pyValFloat? (v : PyVal) : Option ℚ :=
  match v with
  | .int n => some (mkRat n 1)
  | .pyNone => none
  | .str s => pyFloatOfChars s.data

/-! ## Per-row field extraction (`csv_service.py`, lines 47–49)

`product = row.get('Producto') or row.get('Product', '').strip()` — the
`.strip()` binds only to the English fallback and is evaluated lazily, so a
`None` under the `Product` key raises `AttributeError`, which the inner
`except (ValueError, TypeError)` does not catch (`productRes = none` models
that abort).  `quantity` and `price` use the integer default `0` for an
absent English column. -/

def productFallback (hd f : List String) : Option String :=
  match dGet hd f "Product" with
  | none => some (pyStrip "")
  | some none => none
  | some (some s) => some (pyStrip s)

def productRes (hd f : List String) : Option String :=
  match get0 hd f "Producto" with
  | some s => if s = "" then productFallback hd f else some s
  | none => productFallback hd f

def quantityFallback (hd f : List String) : PyVal :=
  match dGet hd f "Quantity" with
  | none => .int 0
  | some none => .pyNone
  | some (some s) => .str s

def quantityVal (hd f : List String) : PyVal :=
  match get0 hd f "Cantidad" with
  | some s => if s = "" then quantityFallback hd f else .str s
  | none => quantityFallback hd f

def quantityRes (hd f : List String) : Option Int := pyValInt? (quantityVal hd f)

def priceFallback (hd f : List String) : PyVal :=
  match dGet hd f "Price" with
  | none => .int 0
  | some none => .pyNone
  | some (some s) => .str s

def priceVal (hd f : List String) : PyVal :=
  match get0 hd f "Precio" with
  | some s => if s = "" then priceFallback hd f else .str s
  | none => priceFallback hd f

def priceRes (hd f : List String) : Option ℚ := pyValFloat? (priceVal hd f)

/-! ## Row processing (`csv_service.py`, lines 44–64) -/

inductive RowOutcome where
  | ok (item : SalesItem)
  | skipWarn
  | skipErr
  | abort
deriving DecidableEq, Repr

inductive LogLevel where
  | warning
  | error
deriving DecidableEq, Repr

/-- Outcome of one loop iteration, in source order: the three field
expressions are evaluated first (an `AttributeError` in the product
expression aborts; an `int`/`float` failure is caught and logged at error
level), then the blank-product check logs a warning and skips, then
`SalesItem` construction (a pydantic `ValidationError` is a `ValueError`,
so it is caught and logged at error level). -/
def parseRow (hd f : List String) : RowOutcome :=
  match productRes hd f with
  | none => .abort
  | some prod =>
    match quantityRes hd f with
    | none => .skipErr
    | some q =>
      match priceRes hd f with
      | none => .skipErr
      | some p =>
        if prod = "" then .skipWarn
        else
          match mkSalesItem? prod q p with
          | some item => .ok item
          | none => .skipErr

/-- Diagnostic level the loop emits for a row outcome (`logger.warning` for a
blank product, `logger.error` for invalid data; an abort is logged by the
outer handler instead). -/
def rowLog : RowOutcome → Option LogLevel
  | .skipWarn => some .warning
  | .skipErr => some .error
  | _ => none

/-- The row loop: `DictReader` silently skips blank lines (`row == []`);
`ok` items are appended in input order; an uncaught exception in any row
discards everything and propagates to the outer handler (`Except.error`). -/
def processRows (hd : List String) : List (List String) → Except Unit (List SalesItem)
  | [] => .ok []
  | f :: rest =>
    if f = [] then processRows hd rest
    else
      match parseRow hd f with
      | .abort => .error ()
      | .ok item => (processRows hd rest).map (fun l => item :: l)
      | .skipWarn => processRows hd rest
      | .skipErr => processRows hd rest

/-- The rows that survive validation, in input order. -/
def survivors (hd : List String) (rows : List (List String)) : List SalesItem :=
  rows.filterMap fun f =>
    if f = [] then none
    else
      match parseRow hd f with
      | .ok item => some item
      | _ => none

/-! ## `read_sales_data` (`csv_service.py`, lines 19–73) -/

/-- An input source: whether the path exists, whether opening/decoding the
bytes succeeds, and the decoded header and data rows. -/
structure CsvSource where
  present : Bool
  decodeOk : Bool
  header : List String
  rows : List (List String)
deriving DecidableEq, Repr

/-- Failure taxonomy of `read_sales_data`: `FileNotFoundError` for a missing
path, the wrapping `ValueError "Failed to read CSV file"` for read/decoding
failures and uncaught row exceptions, and `ValueError "No valid sales data
found"` for an empty surviving-item list. -/
inductive ParseError where
  | dataSourceMissing
  | sourceReadError
  | noValidRows
deriving DecidableEq, Repr

def readSalesData (src : CsvSource) : Except ParseError SalesReport :=
  if src.present = false then .error .dataSourceMissing
  else if src.decodeOk = false then .error .sourceReadError
  else
    match processRows src.header src.rows with
    | .error _ => .error .sourceReadError
    | .ok [] => .error .noValidRows
    | .ok items => .ok ⟨items⟩

/-- A data row the loop actually skips at error level.  Note the two guards
this needs beyond the list of malformation kinds: the row's product
extraction must not raise (`productRes` is `some` — a row whose `Producto`
value is absent or empty while its `Product` key holds `None` aborts the
whole parse instead, even when its quantity is also non-integer), and in
the `quantity < 1` / `price < 0` cases the product must be non-blank (the
blank-name check precedes item construction, so a blank-product row with
parseable numerics is warning-skipped, not error-skipped). -/
def malformedRow (hd f : List String) : Bool :=
  !f.isEmpty &&
  (productRes hd f).isSome &&
  ((quantityRes hd f).isNone ||
   (priceRes hd f).isNone ||
   (match productRes hd f, quantityRes hd f, priceRes hd f with
    | some prod, some q, some p => !(prod = "") && (q < 1 || p < 0)
    | _, _, _ => false))

deriving instance DecidableEq for Except

/-! ## Currency formatting (`pdf_service.py`, lines 68 and 93–94)

`f"${x:,.2f}"` and `f"${x:.2f}"` round to an integer number of cents and
print it with two fraction digits, the former grouping the integer part in
threes with commas.  `cents q` computes `⌊q * 100 + 1/2⌋` directly on the
exact fraction (`q * 100 + 1/2 = (200 num + den) / (2 den)`); Python's
round-half-even on binary doubles can differ only on exact half-cent ties,
which no value in this development exercises. -/

def cents (q : ℚ) : Int := Int.fdiv (200 * q.num + (q.den : Int)) (2 * (q.den : Int))

def natStr (n : Nat) : String := ⟨Nat.toDigits 10 n⟩

/-- Insert a comma after every three digits of a least-significant-first
digit list. -/
def group3 : List Char → List Char
  | a :: b :: c :: d :: rest => a :: b :: c :: ',' :: group3 (d :: rest)
  | l => l

/-- Decimal rendering of a natural number with thousands separators. -/
def natGrouped (n : Nat) : String := ⟨(group3 (Nat.toDigits 10 n).reverse).reverse⟩

/-- Exactly two decimal digits, the value of `m` modulo 100, zero-padded. -/
def twoDigitStr (m : Nat) : String := ⟨[Nat.digitChar (m / 10 % 10), Nat.digitChar (m % 10)]⟩

/-- Python `f"{q:.2f}"`: fixed two decimal places, no grouping. -/
def fixed2 (q : ℚ) : String :=
  let n := cents q
  (if n < 0 then "-" else "") ++ natStr (n.natAbs / 100) ++ "." ++ twoDigitStr (n.natAbs % 100)

/-- Python `f"{q:,.2f}"`: fixed two decimal places with thousands separators. -/
def commaFixed2 (q : ℚ) : String :=
  let n := cents q
  (if n < 0 then "-" else "") ++ natGrouped (n.natAbs / 100) ++ "." ++ twoDigitStr (n.natAbs % 100)

def fmtCurrencyPlain (q : ℚ) : String := "$" ++ fixed2 q

def fmtCurrencyComma (q : ℚ) : String := "$" ++ commaFixed2 q

/-! ## Report layout (`pdf_service.py`, lines 45–142)

The generation timestamp is environment input; it reaches the renderer
already formatted (`ts` for the filename pattern `%Y%m%d_%H%M%S`,
`generatedAt` for the summary pattern `%Y-%m-%d %H:%M:%S`). -/

/-- The `summary_data` rows (lines 66–70). -/
def summaryData (r : SalesReport) (generatedAt : String) : List (List String) :=
  [["Total Items Sold:", toString r.total_items],
   ["Total Revenue:", fmtCurrencyComma r.total_revenue],
   ["Report Generated:", generatedAt]]

def tableHeaderRow : List String := ["Product", "Quantity", "Unit Price", "Total"]

/-- One `table_data` row per item (lines 89–95). -/
def tableRowOf (it : SalesItem) : List String :=
  [it.product, toString it.quantity, fmtCurrencyPlain it.price, fmtCurrencyPlain it.total]

def tableData (r : SalesReport) : List (List String) :=
  tableHeaderRow :: r.items.map tableRowOf

/-- The bar chart configuration `_create_sales_chart` builds (lines 144–174):
labels truncated to 15 characters, bar heights the quantities, value axis
from 0 to `max(quantities) * 1.2` or 1 when there are no bars (`1.2` is the
exact rational 6/5 here). -/
structure ChartSpec where
  categoryNames : List String
  data : List Int
  valueMin : ℚ
  valueMax : ℚ
deriving DecidableEq, Repr

/-- Python `max` over a nonempty integer list (0 for the empty list, which
`_create_sales_chart` never reaches thanks to its conditional). -/
def listMax : List Int → Int
  | [] => 0
  | x :: xs => xs.foldl max x

def createSalesChart (r : SalesReport) : ChartSpec :=
  let quantities := r.items.map SalesItem.quantity
  ⟨r.items.map (fun it => it.product.take 15),
   quantities,
   mkRat 0 1,
   if quantities = [] then mkRat 1 1 else mkRat (listMax quantities * 6) 5⟩

def reportFilename (ts : String) : String := "sales_report_" ++ ts ++ ".pdf"

def reportFilepath (ts : String) : String := REPORTS_DIR ++ "/" ++ reportFilename ts

/-! ## File-system effects of `generate_sales_report`

The composed document is modelled as an ordered list of serialized content
chunks (title, summary table, line-item table, chart), written directly to
the final output path after the directory is ensured.  `runOps` applies the
effect trace to an empty file system; an interruption `(i, k)` models a
failure at operation `i` after `k` chunks of a write have reached the disk,
the later operations never happening. -/

def cellsFlat (t : List (List String)) : String :=
  String.intercalate ";" (t.map (String.intercalate ","))

def ratStr (q : ℚ) : String := toString q.num ++ "/" ++ toString q.den

def chartFlat (c : ChartSpec) : String :=
  String.intercalate "," c.categoryNames ++ "|" ++
    String.intercalate "," (c.data.map toString) ++ "|" ++
    ratStr c.valueMin ++ "|" ++ ratStr c.valueMax

/-- The document content, in composition order (title, summary, table,
chart — lines 61, 66–83, 87–120, 123–125). -/
def docChunks (r : SalesReport) (generatedAt : String) : List String :=
  ["Sales Report - Invntio SRL",
   cellsFlat (summaryData r generatedAt),
   cellsFlat (tableData r),
   chartFlat (createSalesChart r)]

inductive FSOp where
  | mkdirs (dir : String)
  | writeFile (path : String) (chunks : List String)
  | rename (src dst : String)
deriving DecidableEq, Repr

def FSOp.isRename : FSOp → Bool
  | .rename _ _ => true
  | _ => false

/-- Effect trace of `generate_sales_report` (lines 43 and 47–128):
`os.makedirs(REPORTS_DIR, exist_ok=True)`, then the single
`SimpleDocTemplate(filepath).build(story)` write at the final path.
No temporary path and no rename occur anywhere in the function. -/
def renderOps (r : SalesReport) (ts generatedAt : String) : List FSOp :=
  [.mkdirs REPORTS_DIR, .writeFile (reportFilepath ts) (docChunks r generatedAt)]

def applyOp (fs : List (String × List String)) : FSOp → List (String × List String)
  | .mkdirs _ => fs
  | .writeFile p c => (p, c) :: fs
  | .rename src dst =>
    match fs.lookup src with
    | some c => (dst, c) :: fs
    | none => fs

def runOps (ops : List FSOp) (interrupt : Option (Nat × Nat)) :
    List (String × List String) :=
  match interrupt with
  | none => ops.foldl applyOp []
  | some (i, k) =>
    let fs := (ops.take i).foldl applyOp []
    match ops[i]? with
    | some (.writeFile p c) => (p, c.take k) :: fs
    | _ => fs

def fileAt (fs : List (String × List String)) (p : String) : Option (List String) :=
  fs.lookup p

/-- The `ReportResponse` value returned on success (lines 132–138). -/
def generateSalesReport (r : SalesReport) (ts generatedAt : String) : ReportResponse :=
  ⟨reportFilename ts, generatedAt, r.items.length, r.total_revenue,
   "/api/v1/reports/download/" ++ reportFilename ts⟩

/-- A data row on which field extraction raises an uncaught exception
(`AttributeError` from `None.strip()`), modelled only for non-blank lines
since `DictReader` skips blank ones. -/
def rowAborts (hd f : List String) : Bool :=
  if f.isEmpty then false
  else
    match parseRow hd f with
    | .abort => true
    | _ => false

/-- The string ends in a decimal point followed by exactly two digits. -/
def hasTwoFracDigits (s : String) : Prop :=
  ∃ a d, s = a ++ "." ++ d ∧ d.length = 2 ∧ d.data.all Char.isDigit = true

/-! ## Helper lemmas -/

theorem one_le_length_of_ne_empty (s : String) (h : s ≠ "") : 1 ≤ s.length := by
  cases s with
  | mk d =>
    cases d with
    | nil => exact absurd rfl h
    | cons a t => simp [String.length]

/-- A row the error-level rule governs is skipped with `continue` after
`logger.error`, never anything else. -/
theorem parseRow_skipErr_of_malformed (hd f : List String)
    (h : malformedRow hd f = true) : parseRow hd f = RowOutcome.skipErr := by
  unfold malformedRow at h
  cases hp : productRes hd f with
  | none => rw [hp] at h; simp at h
  | some prod =>
    rw [hp] at h
    cases hq : quantityRes hd f with
    | none => simp only [parseRow, hp, hq]
    | some q =>
      rw [hq] at h
      cases hpr : priceRes hd f with
      | none => simp only [parseRow, hp, hq, hpr]
      | some p =>
        rw [hpr] at h
        simp only [Option.isSome_some, Option.isNone_some, Bool.and_eq_true,
          Bool.or_eq_true, Bool.false_eq_true, false_or, Bool.not_eq_true',
          decide_eq_true_eq, decide_eq_false_iff_not] at h
        obtain ⟨-, hprod, hlt⟩ := h
        simp only [parseRow, hp, hq, hpr, if_neg hprod, mkSalesItem?]
        rw [if_neg]
        rintro ⟨-, hq1, hp1⟩
        rcases hlt with hlt | hlt
        · omega
        · exact absurd hp1 (not_le.mpr hlt)

/-- Removing a row whose outcome is an error-level skip from anywhere in the
row list leaves the fold unchanged. -/
theorem processRows_middle (hd r : List String) (hr : parseRow hd r = RowOutcome.skipErr)
    (pre post : List (List String)) :
    processRows hd (pre ++ r :: post) = processRows hd (pre ++ post) := by
  induction pre with
  | nil => by_cases hre : r = [] <;> simp [processRows, hre, hr]
  | cons a t ih =>
    by_cases hae : a = []
    · simp [processRows, hae, ih]
    · cases hpa : parseRow hd a <;> simp [processRows, hae, hpa, ih]

/-- C1 counterexample: a single row with a non-integer quantity can abort
the whole parse — under header `Quantity,Product` the short row `["abc"]`
leaves the `Product` value `None`, so the product expression raises
`AttributeError` (before the quantity is even parsed) and the parse fails
as `SourceReadError`; and a blank-product row with quantity 0 (< 1) is
skipped with a warning-level diagnostic, not an error-level one. -/
theorem malformed_row_aborts_or_warns :
    quantityRes ["Quantity", "Product"] ["abc"] = none ∧
    parseRow ["Quantity", "Product"] ["abc"] = RowOutcome.abort ∧
    readSalesData ⟨true, true, ["Quantity", "Product"], [["abc"]]⟩ =
      Except.error ParseError.sourceReadError ∧
    parseRow ["Product", "Quantity", "Price"] ["", "0", "1.00"] = RowOutcome.skipWarn ∧
    rowLog (parseRow ["Product", "Quantity", "Price"] ["", "0", "1.00"]) =
      some LogLevel.warning := by decide

/-- C1 (amended): a single malformed data row (non-integer quantity,
non-numeric price, quantity < 1, or price < 0) is skipped with an
error-level diagnostic and never aborts parsing — the parse of the source
equals the parse without that row, so the Report contains exactly the
LineItems of the valid rows — provided the row's product extraction does
not itself raise (rows whose `Producto` value is absent or empty while the
`Product` key holds `None` abort the whole parse as `SourceReadError`) and,
in the `quantity < 1` / `price < 0` cases, the product is non-blank (a
blank-product row with parseable numerics is warning-skipped instead); the
`malformedRow` predicate states exactly these provisos. -/
theorem malformed_row_is_skipped_and_logged (hd r : List String)
    (pre post : List (List String)) (hm : malformedRow hd r = true) :
    parseRow hd r = RowOutcome.skipErr ∧
    rowLog (parseRow hd r) = some LogLevel.error ∧
    ∀ present decodeOk,
      readSalesData ⟨present, decodeOk, hd, pre ++ r :: post⟩ =
        readSalesData ⟨present, decodeOk, hd, pre ++ post⟩ := by
  have hs := parseRow_skipErr_of_malformed hd r hm
  refine ⟨hs, by rw [hs]; rfl, ?_⟩
  intro present decodeOk
  unfold readSalesData
  simp only [processRows_middle hd r hs pre post]

/-- Witness for C1 at a concrete source: a non-integer-quantity row amid
valid rows changes nothing. -/
theorem malformed_row_is_skipped_and_logged_witness :
    readSalesData ⟨true, true, ["Product", "Quantity", "Price"],
        [["Widget", "3", "9.99"], ["Thing", "abc", "2.00"]]⟩ =
      readSalesData ⟨true, true, ["Product", "Quantity", "Price"],
        [["Widget", "3", "9.99"]]⟩ :=
  (malformed_row_is_skipped_and_logged ["Product", "Quantity", "Price"]
    ["Thing", "abc", "2.00"] [["Widget", "3", "9.99"]] [] (by decide)).2.2 true true

/-- C2: the spec's sample source with header `Product,Quantity,Price` and
rows `Widget,3,9.99` / `Gadget,0,5.00` / `,2,1.00` / `Thing,abc,2.00`
parses to a Report with exactly the single item (`Widget`, 3, 9.99);
`mkRat 999 100` is the exact value 9.99. -/
theorem sample_source_parses_to_single_widget_item :
    readSalesData ⟨true, true, ["Product", "Quantity", "Price"],
        [["Widget", "3", "9.99"], ["Gadget", "0", "5.00"],
         ["", "2", "1.00"], ["Thing", "abc", "2.00"]]⟩ =
      Except.ok ⟨[⟨"Widget", 3, mkRat 999 100⟩]⟩ := by decide

theorem processRows_ok_survivors (hd : List String) (rows : List (List String))
    (items : List SalesItem) (h : processRows hd rows = Except.ok items) :
    items = survivors hd rows := by
  induction rows generalizing items with
  | nil =>
    simp only [processRows, Except.ok.injEq] at h
    simp [survivors, ← h]
  | cons f rest ih =>
    by_cases hfe : f = []
    · simp only [processRows, if_pos hfe] at h
      simp [survivors, List.filterMap_cons, hfe, ih items h]
    · cases hpf : parseRow hd f with
      | abort => simp [processRows, hfe, hpf] at h
      | ok item =>
        simp only [processRows, if_neg hfe, hpf] at h
        cases hr : processRows hd rest with
        | error e => rw [hr] at h; simp [Except.map] at h
        | ok l =>
          rw [hr] at h
          simp only [Except.map, Except.ok.injEq] at h
          subst h
          simp [survivors, List.filterMap_cons, hfe, hpf, ih l hr]
      | skipWarn =>
        simp only [processRows, if_neg hfe, hpf] at h
        simp [survivors, List.filterMap_cons, hfe, hpf, ih items h]
      | skipErr =>
        simp only [processRows, if_neg hfe, hpf] at h
        simp [survivors, List.filterMap_cons, hfe, hpf, ih items h]

theorem processRows_ok_of_no_abort (hd : List String) (rows : List (List String))
    (h : rows.any (rowAborts hd) = false) :
    processRows hd rows = Except.ok (survivors hd rows) := by
  induction rows with
  | nil => simp [processRows, survivors]
  | cons f rest ih =>
    simp only [List.any_cons, Bool.or_eq_false_iff] at h
    by_cases hfe : f = []
    · simp [processRows, survivors, List.filterMap_cons, hfe, ih h.2]
    · cases hpf : parseRow hd f with
      | abort =>
        exfalso
        have := h.1
        rw [rowAborts, if_neg (by simpa using hfe), hpf] at this
        exact Bool.true_eq_false.mp this
      | ok item =>
        simp [processRows, survivors, List.filterMap_cons, hfe, hpf, ih h.2, Except.map]
      | skipWarn =>
        simp [processRows, survivors, List.filterMap_cons, hfe, hpf, ih h.2]
      | skipErr =>
        simp [processRows, survivors, List.filterMap_cons, hfe, hpf, ih h.2]

/-- C7 (amended): on a source that opens and decodes, provided no data row
aborts field extraction, the parse fails with NoValidRows exactly when zero
rows survive validation, and returns the Report of the survivors whenever
at least one row survives. -/
theorem no_valid_rows_iff_empty_survivors (src : CsvSource)
    (hp : src.present = true) (hdk : src.decodeOk = true)
    (hna : src.rows.any (rowAborts src.header) = false) :
    (readSalesData src = Except.error ParseError.noValidRows ↔
      survivors src.header src.rows = []) ∧
    (survivors src.header src.rows ≠ [] →
      readSalesData src = Except.ok ⟨survivors src.header src.rows⟩) := by
  obtain ⟨present, dec, hd, rows⟩ := src
  simp only at hp hdk hna
  subst hp; subst hdk
  have hpr := processRows_ok_of_no_abort hd rows hna
  unfold readSalesData
  simp only [Bool.true_eq_false, if_false, hpr]
  cases hs : survivors hd rows with
  | nil => simp
  | cons a l => simp

/-- C7 counterexample: a source that opens and decodes, whose first row
survives validation, still fails as SourceReadError because its second
(short) row leaves the Product value None and the product expression's
AttributeError escapes the inner handler — so parse does not succeed even
though a row survives. -/
theorem abort_row_overrides_success :
    readSalesData ⟨true, true, ["Quantity", "Price", "Product"],
        [["3", "9.99", "Widget"], ["4", "5.00"]]⟩ =
      Except.error ParseError.sourceReadError ∧
    survivors ["Quantity", "Price", "Product"]
        [["3", "9.99", "Widget"], ["4", "5.00"]] =
      [⟨"Widget", 3, mkRat 999 100⟩] := by decide

/-- Witness for C7 at a concrete source: a header-only source (no data
rows) fails with NoValidRows. -/
theorem no_valid_rows_iff_empty_survivors_witness :
    readSalesData ⟨true, true, ["Product", "Quantity", "Price"], []⟩ =
      Except.error ParseError.noValidRows :=
  ((no_valid_rows_iff_empty_survivors ⟨true, true, ["Product", "Quantity", "Price"], []⟩
    rfl rfl (by decide)).1).mpr (by decide)

/-- C8 counterexample: SourceReadError is not raised only for read/decoding
failures — an existing source that decodes correctly still fails with
SourceReadError when a row-processing AttributeError escapes the inner
handler (here a short row leaving the Product value None). -/
theorem source_read_error_from_row_processing :
    parseRow ["Price", "Product"] ["5.00"] = RowOutcome.abort ∧
    readSalesData ⟨true, true, ["Price", "Product"], [["5.00"]]⟩ =
      Except.error ParseError.sourceReadError := by decide

/-- C8 (amended): a nonexistent source fails with DataSourceMissing
independently of its row data (before any row processing), DataSourceMissing
is distinct from SourceReadError, and SourceReadError arises only on a
source that exists — from a read/decoding failure or from an uncaught
row-processing exception (the fold returning an error). -/
theorem missing_source_fails_before_row_processing :
    (∀ (dec : Bool) (hd : List String) (rows : List (List String)),
      readSalesData ⟨false, dec, hd, rows⟩ = Except.error ParseError.dataSourceMissing) ∧
    (∀ src : CsvSource,
      readSalesData src = Except.error ParseError.sourceReadError →
      src.present = true ∧
        (src.decodeOk = false ∨ processRows src.header src.rows = Except.error ())) ∧
    ParseError.dataSourceMissing ≠ ParseError.sourceReadError := by
  refine ⟨fun dec hd rows => rfl, ?_, by decide⟩
  intro src h
  cases hp : src.present with
  | false =>
    unfold readSalesData at h
    rw [hp] at h
    simp at h
  | true =>
    refine ⟨rfl, ?_⟩
    cases hdk : src.decodeOk with
    | false => exact Or.inl rfl
    | true =>
      unfold readSalesData at h
      rw [hp, hdk] at h
      simp only [Bool.true_eq_false, if_false] at h
      cases hm : processRows src.header src.rows with
      | error e => exact Or.inr rfl
      | ok l =>
        rw [hm] at h
        cases l with
        | nil => simp at h
        | cons a t => simp at h

/-- Witness for C8 at concrete sources: a missing path yields
DataSourceMissing, and a present source with a decode failure satisfies the
SourceReadError characterization. -/
theorem missing_source_fails_before_row_processing_witness :
    readSalesData ⟨false, true, ["Product"], [["Widget"]]⟩ =
      Except.error ParseError.dataSourceMissing ∧
    ((⟨true, false, [], []⟩ : CsvSource).present = true ∧
      ((⟨true, false, [], []⟩ : CsvSource).decodeOk = false ∨
        processRows (⟨true, false, [], []⟩ : CsvSource).header
          (⟨true, false, [], []⟩ : CsvSource).rows = Except.error ())) :=
  ⟨missing_source_fails_before_row_processing.1 true ["Product"] [["Widget"]],
   missing_source_fails_before_row_processing.2.1 ⟨true, false, [], []⟩ (by decide)⟩

/-- C9: the items of a successfully parsed Report are exactly the
surviving rows in source order — the fold appends in input order and never
reorders — and the renderer's table is the header row followed by one row
per item in that same Report order. -/
theorem report_preserves_row_order (src : CsvSource) (rep : SalesReport)
    (h : readSalesData src = Except.ok rep) :
    rep.items = survivors src.header src.rows ∧
    tableData rep = tableHeaderRow :: rep.items.map tableRowOf := by
  refine ⟨?_, rfl⟩
  obtain ⟨present, dec, hd, rows⟩ := src
  unfold readSalesData at h
  cases present with
  | false => simp at h
  | true =>
    cases dec with
    | false => simp at h
    | true =>
      simp only [Bool.true_eq_false, if_false] at h
      cases hm : processRows hd rows with
      | error e => rw [hm] at h; simp at h
      | ok l =>
        rw [hm] at h
        cases l with
        | nil => simp at h
        | cons a t =>
          simp only [Except.ok.injEq] at h
          rw [← h]
          exact processRows_ok_survivors hd rows (a :: t) hm

/-- Witness for C9 at a concrete source with a skipped row in the middle
of the surviving ones. -/
theorem report_preserves_row_order_witness :
    SalesReport.items ⟨[⟨"Widget", 3, mkRat 999 100⟩]⟩ =
      survivors ["Product", "Quantity", "Price"]
        [["Widget", "3", "9.99"], ["", "2", "1.00"]] :=
  (report_preserves_row_order
    ⟨true, true, ["Product", "Quantity", "Price"],
      [["Widget", "3", "9.99"], ["", "2", "1.00"]]⟩
    ⟨[⟨"Widget", 3, mkRat 999 100⟩]⟩ (by decide)).1

/-- C10: for each of the three fields, the parser uses the Spanish-header
value whenever that value is present and non-empty, and evaluates the
English-header fallback expression exactly when the Spanish value is absent
(None) or empty — Python `or` truthiness on the row dictionary. -/
theorem spanish_header_precedence (hd f : List String) :
    (∀ s, get0 hd f "Producto" = some s → s ≠ "" → productRes hd f = some s) ∧
    ((get0 hd f "Producto" = none ∨ get0 hd f "Producto" = some "") →
      productRes hd f = productFallback hd f) ∧
    (∀ s, get0 hd f "Cantidad" = some s → s ≠ "" → quantityVal hd f = PyVal.str s) ∧
    ((get0 hd f "Cantidad" = none ∨ get0 hd f "Cantidad" = some "") →
      quantityVal hd f = quantityFallback hd f) ∧
    (∀ s, get0 hd f "Precio" = some s → s ≠ "" → priceVal hd f = PyVal.str s) ∧
    ((get0 hd f "Precio" = none ∨ get0 hd f "Precio" = some "") →
      priceVal hd f = priceFallback hd f) := by
  refine ⟨?_, ?_, ?_, ?_, ?_, ?_⟩
  · intro s hs hne; simp [productRes, hs, hne]
  · rintro (hs | hs) <;> simp [productRes, hs]
  · intro s hs hne; simp [quantityVal, hs, hne]
  · rintro (hs | hs) <;> simp [quantityVal, hs]
  · intro s hs hne; simp [priceVal, hs, hne]
  · rintro (hs | hs) <;> simp [priceVal, hs]

/-- Witness for C10 on rows carrying both header spellings: a non-empty
Spanish value wins; an empty Spanish value falls back. -/
theorem spanish_header_precedence_witness :
    productRes ["Producto", "Product"] ["ES", "EN"] = some "ES" ∧
    quantityVal ["Cantidad", "Quantity"] ["", "7"] =
      quantityFallback ["Cantidad", "Quantity"] ["", "7"] :=
  ⟨(spanish_header_precedence ["Producto", "Product"] ["ES", "EN"]).1 "ES"
      (by decide) (by decide),
   (spanish_header_precedence ["Cantidad", "Quantity"] ["", "7"]).2.2.2.1
      (Or.inr (by decide))⟩

theorem string_append_assoc (a b c : String) : a ++ b ++ c = a ++ (b ++ c) := by
  cases a with
  | mk la =>
    cases b with
    | mk lb =>
      cases c with
      | mk lc =>
        show String.mk (la ++ lb ++ lc) = String.mk (la ++ (lb ++ lc))
        rw [List.append_assoc]

theorem digitChar_isDigit (n : Nat) (h : n < 10) : (Nat.digitChar n).isDigit = true := by
  interval_cases n <;> decide

theorem twoDigitStr_spec (m : Nat) :
    (twoDigitStr m).length = 2 ∧ (twoDigitStr m).data.all Char.isDigit = true := by
  refine ⟨rfl, ?_⟩
  simp [twoDigitStr, digitChar_isDigit (m / 10 % 10) (Nat.mod_lt _ (by omega)),
    digitChar_isDigit (m % 10) (Nat.mod_lt _ (by omega))]

theorem fixed2_hasTwoFracDigits (q : ℚ) : hasTwoFracDigits (fixed2 q) :=
  ⟨(if cents q < 0 then "-" else "") ++ natStr ((cents q).natAbs / 100),
   twoDigitStr ((cents q).natAbs % 100), rfl, (twoDigitStr_spec _).1, (twoDigitStr_spec _).2⟩

theorem commaFixed2_hasTwoFracDigits (q : ℚ) : hasTwoFracDigits (commaFixed2 q) :=
  ⟨(if cents q < 0 then "-" else "") ++ natGrouped ((cents q).natAbs / 100),
   twoDigitStr ((cents q).natAbs % 100), rfl, (twoDigitStr_spec _).1, (twoDigitStr_spec _).2⟩

theorem hasTwoFracDigits_dollar (s : String) (h : hasTwoFracDigits s) :
    hasTwoFracDigits ("$" ++ s) := by
  obtain ⟨a, d, he, h2, hd⟩ := h
  exact ⟨"$" ++ a, d, by rw [he, ← string_append_assoc, ← string_append_assoc], h2, hd⟩

/-- C3 counterexample: on a report with a single item priced 1234.5, the
emitted Unit Price and Total table cells are "$1234.50" — two decimals but
no thousands separator — while the claim's required rendering of 1234.5 is
"$1,234.50". -/
theorem currency_cells_lack_thousands_separator :
    tableData ⟨[⟨"Widget", 1, mkRat 2469 2⟩]⟩ =
      [["Product", "Quantity", "Unit Price", "Total"],
       ["Widget", "1", "$1234.50", "$1234.50"]] ∧
    fmtCurrencyComma (mkRat 2469 2) = "$1,234.50" ∧
    ("$1234.50" : String) ≠ "$1,234.50" := by
  have h : (⟨"Widget", 1, mkRat 2469 2⟩ : SalesItem).total = mkRat 2469 2 := by
    simp [SalesItem.total]
  refine ⟨?_, by decide, by decide⟩
  simp only [tableData, tableRowOf, List.map_cons, List.map_nil, h]
  decide

/-- C3 (amended): the summary's Total Revenue cell is currency-formatted
with two decimals and thousands separators, while each table row's Unit
Price and Total cells are currency-formatted with exactly two decimals but
no grouping; both formats always end in a point and exactly two digits
(1234.5 renders as "$1,234.50" grouped and "$1234.50" ungrouped). -/
theorem currency_formatting_two_decimals (r : SalesReport) (generatedAt : String) :
    (summaryData r generatedAt)[1]? =
      some ["Total Revenue:", fmtCurrencyComma r.total_revenue] ∧
    tableData r = tableHeaderRow :: r.items.map tableRowOf ∧
    (∀ q : ℚ, hasTwoFracDigits (fmtCurrencyComma q) ∧ hasTwoFracDigits (fmtCurrencyPlain q)) ∧
    fmtCurrencyComma (mkRat 2469 2) = "$1,234.50" ∧
    fmtCurrencyPlain (mkRat 2469 2) = "$1234.50" := by
  refine ⟨rfl, rfl, ?_, by decide, by decide⟩
  intro q
  exact ⟨hasTwoFracDigits_dollar _ (commaFixed2_hasTwoFracDigits q),
    hasTwoFracDigits_dollar _ (fixed2_hasTwoFracDigits q)⟩

/-- C4 counterexample: when the price lookup chain reaches an absent
`Price` key, `row.get('Price', 0)` returns the integer default 0 and the
row is not skipped — both for a header with no price column at all and for
a blank `Precio` cell with no English `Price` header; each yields an item
with price 0. -/
theorem absent_price_column_defaults_to_zero :
    readSalesData ⟨true, true, ["Product", "Quantity"], [["Widget", "3"]]⟩ =
      Except.ok ⟨[⟨"Widget", 3, mkRat 0 1⟩]⟩ ∧
    readSalesData ⟨true, true, ["Producto", "Cantidad", "Precio"], [["Foco", "1", ""]]⟩ =
      Except.ok ⟨[⟨"Foco", 1, mkRat 0 1⟩]⟩ := by decide

/-- C4 (amended): for a row with a valid non-blank product and an integer
quantity ≥ 1, the outcome for a blank price follows the `Precio or Price`
fallback chain: when the `Price` key holds the blank entry `""` and the
`Precio` value is absent or empty, the effective price value is the empty
string, `float` raises, and the row is skipped at error level; but whenever
the fallback reaches an absent `Price` key — the price column missing from
the header entirely, or a blank/absent `Precio` with no `Price` header —
the price silently defaults to the integer 0 and the row yields an item
priced 0 instead of being skipped. -/
theorem blank_price_skipped_absent_price_defaults_zero (hd f : List String)
    (prod : String) (q : Int) (hp : productRes hd f = some prod) (hpe : prod ≠ "")
    (hq : quantityRes hd f = some q) (hq1 : 1 ≤ q) :
    (dGet hd f "Price" = some (some "") →
      (get0 hd f "Precio" = none ∨ get0 hd f "Precio" = some "") →
      parseRow hd f = RowOutcome.skipErr) ∧
    ((get0 hd f "Precio" = none ∨ get0 hd f "Precio" = some "") →
      dGet hd f "Price" = none →
      parseRow hd f = RowOutcome.ok ⟨pyStrip prod, q, mkRat 0 1⟩) := by
  constructor
  · intro hPrice hPrecio
    have hpv : priceVal hd f = PyVal.str "" := by
      rcases hPrecio with h | h <;> simp [priceVal, h, priceFallback, hPrice]
    have hpr : priceRes hd f = none := by
      simp [priceRes, hpv, pyValFloat?, pyFloatOfChars, trimWs, parseUnsignedFloat]
    simp [parseRow, hp, hq, hpr]
  · intro hPrecio hPrice
    have hpv : priceVal hd f = PyVal.int 0 := by
      rcases hPrecio with h | h <;> simp [priceVal, h, priceFallback, hPrice]
    have hpr : priceRes hd f = some (mkRat 0 1) := by simp [priceRes, hpv, pyValFloat?]
    have hcond : 1 ≤ prod.length ∧ 1 ≤ q ∧ 0 ≤ mkRat 0 1 :=
      ⟨one_le_length_of_ne_empty prod hpe, hq1, by decide⟩
    simp [parseRow, hp, hq, hpr, if_neg hpe, mkSalesItem?, if_pos hcond]
    rw [if_pos ⟨hcond.1, hcond.2.1⟩]

/-- Witness for C4 (amended) at concrete rows: a blank `Price` cell is
error-skipped; a header without any price column, and a blank `Precio` cell
without a `Price` header, each yield a price-0 item. -/
theorem blank_price_skipped_absent_price_defaults_zero_witness :
    parseRow ["Product", "Quantity", "Price"] ["Cable", "2", ""] = RowOutcome.skipErr ∧
    parseRow ["Product", "Quantity"] ["Cable", "2"] =
      RowOutcome.ok ⟨"Cable", 2, mkRat 0 1⟩ ∧
    parseRow ["Producto", "Cantidad", "Precio"] ["Lampara", "4", ""] =
      RowOutcome.ok ⟨"Lampara", 4, mkRat 0 1⟩ :=
  ⟨(blank_price_skipped_absent_price_defaults_zero ["Product", "Quantity", "Price"]
      ["Cable", "2", ""] "Cable" 2 (by decide) (by decide) (by decide) (by decide)).1
      (by decide) (Or.inl (by decide)),
   (blank_price_skipped_absent_price_defaults_zero ["Product", "Quantity"]
      ["Cable", "2"] "Cable" 2 (by decide) (by decide) (by decide) (by decide)).2
      (Or.inl (by decide)) (by decide),
   (blank_price_skipped_absent_price_defaults_zero ["Producto", "Cantidad", "Precio"]
      ["Lampara", "4", ""] "Lampara" 4 (by decide) (by decide) (by decide) (by decide)).2
      (Or.inr (by decide)) (by decide)⟩

/-- C5 counterexample: a whitespace-only product cell under the Spanish
header is truthy in Python, passes pydantic's `min_length=1` check on the
raw value, and is then stripped by the validator — the parsed Report
contains a LineItem whose name is empty. -/
theorem whitespace_name_parses_to_empty_product :
    readSalesData ⟨true, true, ["Producto", "Cantidad", "Precio"], [[" ", "1", "0"]]⟩ =
      Except.ok ⟨[⟨"", 1, mkRat 0 1⟩]⟩ ∧
    mkSalesItem? " " 1 (mkRat 0 1) = some ⟨"", 1, mkRat 0 1⟩ := by decide

/-- C5 (amended): every constructed LineItem has quantity ≥ 1, price ≥ 0
and stores the stripped raw name, with the nonemptiness (`min_length=1`)
check applied to the raw name before stripping — so the stored name is
empty exactly when a nonempty raw name was all whitespace. -/
theorem constructed_item_bounds (p : String) (q : Int) (pr : ℚ) (it : SalesItem)
    (h : mkSalesItem? p q pr = some it) :
    it.product = pyStrip p ∧ it.quantity = q ∧ 1 ≤ it.quantity ∧
    it.price = pr ∧ 0 ≤ it.price ∧ 1 ≤ p.length := by
  unfold mkSalesItem? at h
  by_cases hc : 1 ≤ p.length ∧ 1 ≤ q ∧ 0 ≤ pr
  · rw [if_pos hc] at h
    obtain ⟨h1, h2, h3⟩ := hc
    cases h
    exact ⟨rfl, rfl, h2, rfl, h3, h1⟩
  · rw [if_neg hc] at h; cases h

/-- Witness for C5 (amended): a name with surrounding whitespace is stored
stripped. -/
theorem constructed_item_bounds_witness :
    SalesItem.product ⟨"x", 2, mkRat 5 1⟩ = pyStrip " x " ∧
    1 ≤ SalesItem.quantity ⟨"x", 2, mkRat 5 1⟩ :=
  ⟨(constructed_item_bounds " x " 2 (mkRat 5 1) ⟨"x", 2, mkRat 5 1⟩ (by decide)).1,
   (constructed_item_bounds " x " 2 (mkRat 5 1) ⟨"x", 2, mkRat 5 1⟩ (by decide)).2.2.1⟩

/-- C6 counterexample: the renderer performs no rename and writes the
document directly to the final output path; interrupting that single write
after one chunk leaves a file at the final path whose content is not the
composed document, which a caller could mistake for the artifact. -/
theorem render_partial_write_left_at_final_path :
    (renderOps ⟨[⟨"Widget", 3, mkRat 999 100⟩]⟩ "20260101_120000"
        "2026-01-01 12:00:00").all (fun op => !op.isRename) = true ∧
    fileAt (runOps (renderOps ⟨[⟨"Widget", 3, mkRat 999 100⟩]⟩ "20260101_120000"
        "2026-01-01 12:00:00") (some (1, 1))) (reportFilepath "20260101_120000") =
      some ["Sales Report - Invntio SRL"] ∧
    docChunks ⟨[⟨"Widget", 3, mkRat 999 100⟩]⟩ "2026-01-01 12:00:00" ≠
      ["Sales Report - Invntio SRL"] := by
  refine ⟨by decide, by decide, ?_⟩
  intro h
  exact absurd (congrArg List.length h) (by decide)

/-- C6 (amended): render's effect trace is exactly the directory creation
followed by one direct write of the composed document at the final output
path — no temporary path, no rename — so a write interrupted after `k`
chunks leaves exactly that prefix of the document at the final path. -/
theorem render_writes_directly_to_final_path (r : SalesReport) (ts generatedAt : String) :
    renderOps r ts generatedAt =
      [FSOp.mkdirs REPORTS_DIR,
       FSOp.writeFile (reportFilepath ts) (docChunks r generatedAt)] ∧
    (renderOps r ts generatedAt).all (fun op => !op.isRename) = true ∧
    ∀ k, fileAt (runOps (renderOps r ts generatedAt) (some (1, k)))
        (reportFilepath ts) = some ((docChunks r generatedAt).take k) := by
  refine ⟨rfl, rfl, ?_⟩
  intro k
  simp [runOps, renderOps, fileAt, applyOp, List.lookup]
